import Mathlib

/-!
Verification of the session lifecycle and human-synchronization core of the
AmongUs web wrapper (`server/game_manager.py`, `server/app.py`).

The Python code is shallowly embedded: the `GameManager` instance state
(`_records`, `_next_game_id`, and the engine's `human_action_futures` table)
becomes a `ManagerState` value, each manager method becomes a pure Lean
function over `ManagerState`, and Python exceptions become `Except PyErr`.
The simulation engine (`amongagents`) is outside the verified source; its
objects are modelled at their interface boundary (spec §6): attribute reads
guarded by `getattr(..., default)` become total `Option` fields, while engine
method calls and attribute chains that can raise become `Except String`
fields recording the behaviour of that call.
-/

/-- Python exception values, distinguished the way the callers of
`game_manager.py` distinguish them: by exception class plus message.
`pyExc` stands for an arbitrary exception propagating out of a call into
the simulation engine. -/
inductive PyErr
  | keyError (msg : String)
  | runtimeError (msg : String)
  | valueError (msg : String)
  | timeoutError (msg : String)
  | pyExc (msg : String)
deriving DecidableEq, Repr

/-- `str(exc)` on the exceptions raised by this core. -/
def pyErrMsg : PyErr → String
  | .keyError m => m
  | .runtimeError m => m
  | .valueError m => m
  | .timeoutError m => m
  | .pyExc m => m

/-- Message of the `KeyError` in `get_state`/`submit_human_action`
(game_manager.py lines 217, 280). -/
def unknownGameMsg (gid : Nat) : String := s!"Unknown game_id={gid}"

/-- Message of the `RuntimeError` at game_manager.py line 282. -/
def invalidStateMsg (gid : Nat) (st : String) : String := s!"Game {gid} is already {st}."

/-- Message of the `RuntimeError` at game_manager.py line 286. -/
def noHumanAgentMsg (gid : Nat) : String := s!"Game {gid} has no human agent."

/-- Message of the `RuntimeError` at game_manager.py line 290. -/
def notWaitingMsg : String := "Game is not currently waiting for a human action."

/-- Message of the `ValueError` at game_manager.py line 294. -/
def outOfRangeMsg (i : Int) : String := s!"action_index out of range: {i}"

/-- Message of the `RuntimeError` at game_manager.py line 96. -/
def taskFailedMsg (e : String) : String := s!"Game task failed during initialization: {e}"

/-- Message of the `RuntimeError` at game_manager.py line 97. -/
def finishedEarlyMsg : String := "Game finished before human initialization completed."

/-- Message of the `TimeoutError` at game_manager.py line 104. -/
def timedOutMsg : String := "Timed out waiting for HumanAgent initialization."

/-! ### Association lists modelling Python dictionaries -/

/-- `d.get(k)` / `d[k]` lookup on a dict modelled as an association list. -/
def lookupA {α : Type} : List (Nat × α) → Nat → Option α
  | [], _ => none
  | (k', v) :: rest, k => if k' = k then some v else lookupA rest k

/-- `d[k] = v`: replace the binding if the key is present, else append. -/
def insertA {α : Type} : List (Nat × α) → Nat → α → List (Nat × α)
  | [], k, v => [(k, v)]
  | (k', v') :: rest, k, v =>
    if k' = k then (k', v) :: rest else (k', v') :: insertA rest k v

/-- In-place mutation of the value bound to `k` (Python mutates the object
held in the dict; the dict itself is unchanged). -/
def updateA {α : Type} : List (Nat × α) → Nat → (α → α) → List (Nat × α)
  | [], _, _ => []
  | (k', v') :: rest, k, f =>
    if k' = k then (k', f v') :: updateA rest k f else (k', v') :: updateA rest k f

/-- `d.pop(k, None)`: remove the binding for `k`. -/
def eraseA {α : Type} : List (Nat × α) → Nat → List (Nat × α)
  | [], _ => []
  | (k', v') :: rest, k =>
    if k' = k then eraseA rest k else (k', v') :: eraseA rest k

theorem lookupA_updateA_self {α : Type} (l : List (Nat × α)) (k : Nat) (f : α → α) :
    lookupA (updateA l k f) k = (lookupA l k).map f := by
  induction l with
  | nil => rfl
  | cons p rest ih =>
    obtain ⟨k', v'⟩ := p
    by_cases h : k' = k
    · simp [updateA, lookupA, h]
    · simp [updateA, lookupA, h]
      exact ih

theorem lookupA_updateA_ne {α : Type} (l : List (Nat × α)) (k k' : Nat) (f : α → α)
    (h : k' ≠ k) : lookupA (updateA l k f) k' = lookupA l k' := by
  induction l with
  | nil => rfl
  | cons p rest ih =>
    obtain ⟨a, v'⟩ := p
    by_cases hp : a = k
    · subst hp
      have hne : ¬a = k' := fun hc => h hc.symm
      simp [updateA, lookupA, hne]
      exact ih
    · by_cases hp' : a = k'
      · subst hp'
        simp [updateA, lookupA, hp]
      · simp [updateA, lookupA, hp, hp']
        exact ih

theorem lookupA_eraseA_self {α : Type} (l : List (Nat × α)) (k : Nat) :
    lookupA (eraseA l k) k = none := by
  induction l with
  | nil => rfl
  | cons p rest ih =>
    obtain ⟨a, v'⟩ := p
    by_cases h : a = k
    · simpa [eraseA, h] using ih
    · simpa [eraseA, lookupA, h] using ih

theorem lookupA_eraseA_ne {α : Type} (l : List (Nat × α)) (k k' : Nat) (h : k' ≠ k) :
    lookupA (eraseA l k) k' = lookupA l k' := by
  induction l with
  | nil => rfl
  | cons p rest ih =>
    obtain ⟨a, v'⟩ := p
    by_cases hp : a = k
    · subst hp
      have hne : ¬a = k' := fun hc => h hc.symm
      simp [eraseA, lookupA, hne]
      exact ih
    · by_cases hp' : a = k'
      · subst hp'
        simp [eraseA, lookupA, hp]
      · simp [eraseA, lookupA, hp, hp']
        exact ih

theorem lookupA_insertA_self {α : Type} (l : List (Nat × α)) (k : Nat) (v : α) :
    lookupA (insertA l k v) k = some v := by
  induction l with
  | nil => simp [insertA, lookupA]
  | cons p rest ih =>
    obtain ⟨a, v'⟩ := p
    by_cases h : a = k
    · simp [insertA, lookupA, h]
    · simp [insertA, lookupA, h]
      exact ih

/-! ### The simulation engine's surface (spec §6), modelled at the interface

The engine (`amongagents`) is not part of the verified source; the structures
below model exactly the attributes and methods `game_manager.py` reads.
Reads the manager performs through `getattr(obj, name, default)` or
`dict.get` can never raise and are modelled as `Option` fields; calls into
engine methods and plain attribute chains can raise an arbitrary exception
and are modelled as `Except String` fields carrying the behaviour of that
call (`.error msg` means "this call raises an exception whose `str` is
`msg`"). -/

deriving instance DecidableEq for Except

/-- Modelled from the spec: a participant summary exposed by the engine
(name, location, colour, alive flag) plus the behaviour of its
`all_info_prompt()` method (used at game_manager.py line 249). -/
structure PlayerObj where
  name : String
  location : String := ""
  color : String := ""
  is_alive : Bool := true
  all_info : Except String String := Except.ok ""
deriving DecidableEq, Repr

/-- One entry of a human agent's action list: a dict read with
`action.get("name", "")` and `action.get("requires_message", False)`. -/
structure ActionObj where
  name : Option String := none
  requires_message : Option Bool := none
deriving DecidableEq, Repr

/-- The dict returned by `HumanAgent.get_current_state_for_web()`. -/
structure WebState where
  player_info : Option String := none
  current_step : Option String := none
  available_actions : Option (List ActionObj) := none
deriving DecidableEq, Repr

/-- Modelled from the spec: the engine's human-controlled actor.
`web_state` is the behaviour of the `get_current_state_for_web()` call
(game_manager.py line 234), which is not wrapped in any `try` block. -/
structure HumanAgentObj where
  player : Option PlayerObj := none
  current_available_actions : Option (List ActionObj) := none
  web_state : Except String WebState := Except.ok {}
deriving DecidableEq, Repr

/-- An entry of the simulation's `agents` list; `isinstance(agent, HumanAgent)`
becomes the constructor distinction. -/
inductive AgentObj
  | human (h : HumanAgentObj)
  | other (player : Option PlayerObj)
deriving DecidableEq, Repr

/-- `getattr(agent, "player", None)`. -/
def agentPlayer : AgentObj → Option PlayerObj
  | .human h => h.player
  | .other p => p

/-- One entry of the engine's `activity_log`, a dict read via `entry.get`. -/
structure LogEntry where
  phase : Option String := none
  player : Option PlayerObj := none
  action : Option String := none
  round : Option Int := none
  timestep : Option Int := none
deriving DecidableEq, Repr

/-- `game_config` dict; only `max_timesteps` is read. -/
structure GameConfigObj where
  max_timesteps : Option Int := none
deriving DecidableEq, Repr

/-- How `await record.game.run_game()` (game_manager.py line 74) terminates:
normally, with an engine exception, or with `asyncio.CancelledError`
injected by `task.cancel()` (which is not an `Exception` and therefore not
caught by the `except` clause at line 79). -/
inductive RunOutcome
  | ok
  | raises (msg : String)
  | cancelled
deriving DecidableEq, Repr

/-- Modelled from the spec: the live `AmongUs` simulation instance, reduced
to the fields `game_manager.py` reads.  `summaryResult` is the combined
behaviour of lines 76–78 (`game.summary_json.get(f"Game {id}", {})` followed
by `.get("winner")` / `.get("winner_reason")`), which sits inside the same
`try` block as the run loop and can raise if `summary_json` is absent. -/
structure Game where
  agents : Option (List AgentObj) := none
  current_player : Option String := none
  players : Option (List PlayerObj) := none
  activity_log : Option (List LogEntry) := none
  game_config : Option GameConfigObj := none
  current_phase : Option String := none
  timestep : Option Int := none
  runResult : RunOutcome := RunOutcome.ok
  summaryResult : Except String (Option Int × Option String) := Except.ok (none, none)
deriving DecidableEq, Repr

/-- `asyncio.Task` as the manager uses it: `done()`, `exception()` (only
meaningful when done), `cancel()`. -/
structure TaskState where
  done : Bool
  exc : Option String := none
  cancelled : Bool := false
deriving DecidableEq, Repr

/-- The payload `{"action_index": ..., "message": ...}` built at
game_manager.py line 296. -/
structure Payload where
  action_index : Int
  message : String
deriving DecidableEq, Repr

/-- An `asyncio.Future` from the engine's `human_action_futures` table:
pending, resolved via `set_result`, or cancelled. -/
inductive FutureState
  | pending
  | resolved (payload : Payload)
  | cancelled
deriving DecidableEq, Repr

/-- `future.done()`: true once resolved or cancelled. -/
def futDone : FutureState → Bool
  | .pending => false
  | .resolved _ => true
  | .cancelled => true

/-- `future.cancel()`: a no-op on a done future. -/
def futureCancel : FutureState → FutureState
  | .pending => .cancelled
  | f => f

/-- The `GameRecord` dataclass (game_manager.py lines 23–31). -/
structure GameRecord where
  game_id : Nat
  game : Game
  status : String
  task : Option TaskState := none
  error : Option String := none
  winner : Option Int := none
  winner_reason : Option String := none
deriving DecidableEq, Repr

/-- The mutable state the manager's methods touch: `self._records`,
`self._next_game_id`, and the engine-level `human_action_futures` table
keyed by game id.  The `asyncio` event loop is single-threaded, so each
method body between `await` points acts atomically on this state. -/
structure ManagerState where
  records : List (Nat × GameRecord) := []
  next_game_id : Nat := 1
  futures : List (Nat × FutureState) := []
deriving DecidableEq, Repr

/-! ### `_find_human_agent` / `_find_current_agent` (lines 53–68) -/

/-- The loop of `_find_human_agent`: first agent that is a `HumanAgent`. -/
def findHumanIn : List AgentObj → Option HumanAgentObj
  | [] => none
  | AgentObj.human h :: _ => some h
  | AgentObj.other _ :: rest => findHumanIn rest

/-- `GameManager._find_human_agent` (lines 53–58). -/
def find_human_agent (g : Game) : Option HumanAgentObj :=
  findHumanIn (g.agents.getD [])

/-- The loop of `_find_current_agent`: first agent whose player exists and
is named `nm`. -/
def findAgentByName (nm : String) : List AgentObj → Option AgentObj
  | [] => none
  | a :: rest =>
    match agentPlayer a with
    | some p => if p.name = nm then some a else findAgentByName nm rest
    | none => findAgentByName nm rest

/-- `GameManager._find_current_agent` (lines 60–68); `if not
current_player_name` treats both `None` and the empty string as absent. -/
def find_current_agent (g : Game) : Option AgentObj :=
  match g.current_player with
  | none => none
  | some nm => if nm = "" then none else findAgentByName nm (g.agents.getD [])

/-- `isinstance(current_agent, HumanAgent)` on the result of the lookup. -/
def isHumanOpt : Option AgentObj → Bool
  | some (AgentObj.human _) => true
  | _ => false

/-! ### State projector (`get_state`, lines 171–275) -/

/-- One serialized player position (lines 174–181). -/
structure PositionEntry where
  name : String
  room : String
  color : String
  is_alive : Bool
deriving DecidableEq, Repr

/-- `GameManager._serialize_player_positions` (lines 171–182). -/
def serialize_player_positions (g : Game) : List PositionEntry :=
  (g.players.getD []).map fun p =>
    { name := p.name, room := p.location, color := p.color, is_alive := p.is_alive }

/-- One serialized meeting message (lines 203–211). -/
structure MessageEntry where
  id : String
  timestep : Option Int
  round : Option Int
  player : String
  text : String
deriving DecidableEq, Repr

/-- Python string formatting of an optional int (`None` prints as "None"). -/
def fmtOptInt : Option Int → String
  | none => "None"
  | some i => toString i

/-- Python `str.strip()`: remove whitespace from both ends. -/
def trimChars (l : List Char) : List Char :=
  ((l.dropWhile Char.isWhitespace).reverse.dropWhile Char.isWhitespace).reverse

/-- The regex `^SPEAK\s*:?\s*(.*)$` (IGNORECASE | DOTALL) applied to a string
already known to start with "SPEAK", followed by `.group(1).strip()`
(lines 196–197): drop "SPEAK", leading whitespace, one optional colon, and
strip the remainder. -/
def stripSpeak (s : String) : String :=
  let cs := (s.data.drop 5).dropWhile Char.isWhitespace
  let cs := match cs with
    | ':' :: rest => rest
    | other => other
  String.mk (trimChars cs)

/-- The per-entry filter of `_serialize_meeting_messages` (lines 186–211):
keep entries with phase "meeting", a player and an action whose text starts
with "SPEAK"; empty message text becomes "..."; the synthetic id is
`f"{timestep}:{round}:{player.name}:{text}"`. -/
def meetingMessageOf (e : LogEntry) : Option MessageEntry :=
  if e.phase = some "meeting" then
    match e.player, e.action with
    | some p, some act =>
      if "SPEAK".data.isPrefixOf act.data then
        let m := stripSpeak act
        let message_text := if m = "" then "..." else m
        some { id := fmtOptInt e.timestep ++ ":" ++ fmtOptInt e.round ++ ":"
                       ++ p.name ++ ":" ++ message_text,
               timestep := e.timestep, round := e.round,
               player := p.name, text := message_text }
      else none
    | _, _ => none
  else none

/-- `GameManager._serialize_meeting_messages` (lines 184–212). -/
def serialize_meeting_messages (g : Game) : List MessageEntry :=
  (g.activity_log.getD []).filterMap meetingMessageOf

/-- One serialized available action (lines 239–245). -/
structure ActionEntry where
  index : Nat
  name : String
  requires_message : Bool
deriving DecidableEq, Repr

/-- The `enumerate(raw_actions)` loop of lines 238–245. -/
def serializeActions (raw : List ActionObj) : List ActionEntry :=
  raw.enum.map fun ia =>
    { index := ia.1, name := ia.2.name.getD "", requires_message := ia.2.requires_message.getD false }

/-- Lines 230–251 of `get_state`: on the human's turn, call
`get_current_state_for_web()` (whose failure propagates); otherwise
best-effort read the current agent's `player.all_info_prompt()`, swallowing
any failure (the `try`/`except` at lines 248–251).  Returns
`(available_actions, player_info, current_step)`. -/
def humanTurnFields (is_human_turn : Bool) (human_agent : Option HumanAgentObj)
    (current_agent : Option AgentObj) :
    Except PyErr (List ActionEntry × Option String × Option String) :=
  match is_human_turn, human_agent with
  | true, some h =>
    match h.web_state with
    | Except.error e => Except.error (PyErr.pyExc e)
    | Except.ok ws =>
      Except.ok (serializeActions (ws.available_actions.getD []), ws.player_info, ws.current_step)
  | _, _ =>
    match current_agent with
    | some a =>
      match agentPlayer a with
      | some p =>
        Except.ok ([], (match p.all_info with
                        | Except.ok v => some v
                        | Except.error _ => none), none)
      | none => Except.ok ([], none, none)
    | none => Except.ok ([], none, none)

/-- Line 269: `human_agent.player.name if human_agent else None`.  When the
human agent exists but its `player` attribute is `None`, the attribute chain
raises and the error propagates out of `get_state`. -/
def humanPlayerName (human_agent : Option HumanAgentObj) : Except PyErr (Option String) :=
  match human_agent with
  | none => Except.ok none
  | some h =>
    match h.player with
    | some p => Except.ok (some p.name)
    | none => Except.error (PyErr.pyExc "AttributeError: NoneType object has no attribute name")

/-- The dict returned by `get_state` (lines 256–275). -/
structure Snapshot where
  game_id : Nat
  status : String
  error : Option String
  winner : Option Int
  winner_reason : Option String
  initialized : Bool
  has_human : Bool
  timestep : Option Int
  max_timesteps : Option Int
  current_phase : Option String
  current_player : Option String
  is_human_turn : Bool
  human_player_name : Option String
  current_step : Option String
  player_info : Option String
  available_actions : List ActionEntry
  player_positions : List PositionEntry
  meeting_messages : List MessageEntry
deriving DecidableEq, Repr

/-- `GameManager.get_state` (lines 214–275). -/
def get_state (s : ManagerState) (gid : Nat) : Except PyErr Snapshot :=
  match lookupA s.records gid with
  | none => Except.error (PyErr.keyError (unknownGameMsg gid))
  | some record =>
    let game := record.game
    let current_agent := find_current_agent game
    let is_human_turn := isHumanOpt current_agent
    let human_agent := find_human_agent game
    match humanTurnFields is_human_turn human_agent current_agent with
    | Except.error e => Except.error e
    | Except.ok (available_actions, player_info, current_step) =>
      match humanPlayerName human_agent with
      | Except.error e => Except.error e
      | Except.ok hpn =>
        Except.ok {
          game_id := gid
          status := record.status
          error := record.error
          winner := record.winner
          winner_reason := record.winner_reason
          initialized := !(game.agents.getD []).isEmpty
          has_human := human_agent.isSome
          timestep := game.timestep
          max_timesteps := (game.game_config.getD {}).max_timesteps
          current_phase := game.current_phase
          current_player := game.current_player
          is_human_turn := is_human_turn
          human_player_name := hpn
          current_step := current_step
          player_info := player_info
          available_actions := available_actions
          player_positions := serialize_player_positions game
          meeting_messages := serialize_meeting_messages game }

/-! ### Human action submission (`submit_human_action`, lines 277–297) -/

/-- `GameManager.submit_human_action` (lines 277–297).  The call performs no
`await` (it is an ordinary `def`), so it never suspends; each failure is the
raise at the corresponding line, taken before any state is mutated, and the
single successful path resolves the pending future with
`{"action_index": action_index, "message": speech_text or ""}`. -/
def submit_human_action (s : ManagerState) (gid : Nat) (action_index : Int)
    (speech_text : Option String) : Except PyErr ManagerState :=
  match lookupA s.records gid with
  | none => Except.error (PyErr.keyError (unknownGameMsg gid))
  | some record =>
    if record.status = "completed" ∨ record.status = "error" then
      Except.error (PyErr.runtimeError (invalidStateMsg gid record.status))
    else
      match find_human_agent record.game with
      | none => Except.error (PyErr.runtimeError (noHumanAgentMsg gid))
      | some human_agent =>
        match lookupA s.futures gid with
        | none => Except.error (PyErr.runtimeError notWaitingMsg)
        | some future =>
          if futDone future then Except.error (PyErr.runtimeError notWaitingMsg)
          else
            -- current_actions = human_agent.current_available_actions or []
            if action_index < 0 ∨
                ((human_agent.current_available_actions.getD []).length : Int) ≤ action_index then
              Except.error (PyErr.valueError (outOfRangeMsg action_index))
            else
              Except.ok { s with futures := updateA s.futures gid fun _ =>
                FutureState.resolved { action_index := action_index,
                                       message := speech_text.getD "" } }

/-! ### Session task (`_run_game`, lines 70–87) -/

/-- The `try`/`except` body of `_run_game` (lines 72–81) as its effect on the
record: status becomes "running" (line 73); on normal completion of the run
loop, "completed" with the summary fields (lines 75–78), unless the summary
read itself raises; on an engine exception, "error" with `str(exc)`
(lines 79–81); on cancellation the `CancelledError` is not an `Exception`,
so the `except` clause does not fire and the record is left as the body last
wrote it. -/
def runGameBody (r : GameRecord) : GameRecord :=
  let r1 := { r with status := "running" }
  match r.game.runResult with
  | RunOutcome.cancelled => r1
  | RunOutcome.raises e => { r1 with status := "error", error := some e }
  | RunOutcome.ok =>
    match r.game.summaryResult with
    | Except.error e => { r1 with status := "error", error := some e }
    | Except.ok (w, wr) =>
      { r1 with status := "completed", winner := w, winner_reason := wr }

/-- The final state of the future that the `finally` block (lines 82–87)
removes from the table: if it was pending, `future.cancel()` fires first. -/
def cleanupFate (futs : List (Nat × FutureState)) (gid : Nat) : Option FutureState :=
  (lookupA futs gid).map futureCancel

/-- `GameManager._run_game` (lines 70–87): the body mutates the record, and
the `finally` block always cancels a still-pending future for this id and
pops its table entry — on normal exit, on an engine exception, and on
cancellation alike.  Nothing escapes the task: the function is total. -/
def runGame (s : ManagerState) (gid : Nat) : ManagerState :=
  { s with records := updateA s.records gid runGameBody,
           futures := eraseA s.futures gid }

/-! ### Readiness gate (`_wait_for_human_agent_ready`, lines 89–104) -/

/-- What one iteration of the gate's poll loop observes: whether the session
task is done (and with which exception), and whether `_find_human_agent`
finds a human agent on the record's game. -/
structure PollObs where
  taskDone : Bool
  taskExc : Option String := none
  humanAgent : Bool := false

/-- The `RuntimeError` raised at lines 96–97 when the task finished before a
human agent was observed, carrying the task's exception if any. -/
def prematureErr : Option String → PyErr
  | some e => PyErr.runtimeError (taskFailedMsg e)
  | none => PyErr.runtimeError finishedEarlyMsg

/-- The poll loop of `_wait_for_human_agent_ready` (lines 91–102): `fuel` is
the number of iterations for which the deadline has not yet passed, `i` the
index of the current poll.  Each iteration first checks the task, then the
human agent, then sleeps. -/
def waitReadyAux (obs : Nat → PollObs) : Nat → Nat → Except PyErr Unit
  | 0, _ => Except.error (PyErr.timeoutError timedOutMsg)
  | Nat.succ fuel, i =>
    if (obs i).taskDone then Except.error (prematureErr (obs i).taskExc)
    else if (obs i).humanAgent then Except.ok ()
    else waitReadyAux obs fuel (i + 1)

/-- `GameManager._wait_for_human_agent_ready` (lines 89–104) over a sequence
of poll observations, with `n` polls before the timeout elapses. -/
def wait_for_human_agent_ready (obs : Nat → PollObs) (n : Nat) : Except PyErr Unit :=
  waitReadyAux obs n 0

/-- The readiness gate as §4.4 of the spec words it: find the first poll at
which the task is done or a human agent is visible; the gate fails with
`PrematureCompletion` or returns success accordingly, and times out when no
such poll exists. -/
def gateSpec (obs : Nat → PollObs) (n : Nat) : Except PyErr Unit :=
  match (List.range n).find? (fun i => (obs i).taskDone || (obs i).humanAgent) with
  | none => Except.error (PyErr.timeoutError timedOutMsg)
  | some i =>
    if (obs i).taskDone then Except.error (prematureErr (obs i).taskExc)
    else Except.ok ()

/-! ### Creation path (`create_game`, lines 106–169) -/

/-- Lines 117–156 of `create_game`, the part of the creation critical
section up to spawning the session task: under `self._init_lock`, read and
bump `self._next_game_id`, build the record with status "initializing", and
insert it into `self._records`.  The engine construction and experiment
bookkeeping performed in between do not touch the manager state and are
represented by the `game` argument; the freshly created task is `task`. -/
def createGameRegister (s : ManagerState) (game : Game) (task : TaskState) :
    ManagerState × Nat :=
  let gid := s.next_game_id
  let record : GameRecord :=
    { game_id := gid, game := game, status := "initializing", task := some task }
  ({ s with next_game_id := gid + 1,
            records := insertA s.records gid record }, gid)

/-- A whole sequence of `create_game` calls: the creation lock serializes
their critical sections, so concurrent calls compose sequentially in
lock-acquisition order.  Returns the final state and the ids in that
order. -/
def createSeq : ManagerState → List (Game × TaskState) → ManagerState × List Nat
  | s, [] => (s, [])
  | s, (g, t) :: rest =>
    let step := createGameRegister s g t
    let next := createSeq step.1 rest
    (next.1, step.2 :: next.2)

/-- The `except` handler of lines 159–164: force status to "error", record
`str(exc)`, and cancel the task if it has not finished. -/
def applyGateFailure (r : GameRecord) (msg : String) : GameRecord :=
  let r1 := { r with status := "error", error := some msg }
  match r1.task with
  | some t => if t.done then r1 else { r1 with task := some { t with cancelled := true } }
  | none => r1

/-- Lines 166–167: after a successful gate, promote the status to "running"
unless the task already drove it to a terminal value. -/
def applyGateSuccess (r : GameRecord) : GameRecord :=
  if r.status = "completed" ∨ r.status = "error" then r
  else { r with status := "running" }

/-- Lines 157–169 of `create_game`: the wait on the readiness gate and its
aftermath.  `gate` is the outcome of `_wait_for_human_agent_ready`; on
failure the handler runs and the exception is re-raised to the caller, on
success the id is returned.  Either way the record stays in
`self._records`. -/
def createGameFinish (s : ManagerState) (gid : Nat) (gate : Except PyErr Unit) :
    Except PyErr Nat × ManagerState :=
  match gate with
  | Except.error e =>
    (Except.error e,
     { s with records := updateA s.records gid fun r => applyGateFailure r (pyErrMsg e) })
  | Except.ok _ =>
    (Except.ok gid, { s with records := updateA s.records gid applyGateSuccess })

/-! ### Case analysis of `submit_human_action` -/

theorem submit_not_found {s : ManagerState} {gid : Nat} (i : Int) (sp : Option String)
    (h : lookupA s.records gid = none) :
    submit_human_action s gid i sp = Except.error (PyErr.keyError (unknownGameMsg gid)) := by
  unfold submit_human_action
  rw [h]

theorem submit_terminal {s : ManagerState} {gid : Nat} {r : GameRecord} (i : Int)
    (sp : Option String) (hr : lookupA s.records gid = some r)
    (ht : r.status = "completed" ∨ r.status = "error") :
    submit_human_action s gid i sp =
      Except.error (PyErr.runtimeError (invalidStateMsg gid r.status)) := by
  unfold submit_human_action
  rw [hr]
  simp only [if_pos ht]

theorem submit_no_human {s : ManagerState} {gid : Nat} {r : GameRecord} (i : Int)
    (sp : Option String) (hr : lookupA s.records gid = some r)
    (ht : ¬(r.status = "completed" ∨ r.status = "error"))
    (hh : find_human_agent r.game = none) :
    submit_human_action s gid i sp =
      Except.error (PyErr.runtimeError (noHumanAgentMsg gid)) := by
  unfold submit_human_action
  rw [hr]
  simp only [if_neg ht]
  rw [hh]

theorem submit_no_future {s : ManagerState} {gid : Nat} {r : GameRecord}
    {h : HumanAgentObj} (i : Int) (sp : Option String)
    (hr : lookupA s.records gid = some r)
    (ht : ¬(r.status = "completed" ∨ r.status = "error"))
    (hh : find_human_agent r.game = some h)
    (hf : lookupA s.futures gid = none) :
    submit_human_action s gid i sp = Except.error (PyErr.runtimeError notWaitingMsg) := by
  unfold submit_human_action
  rw [hr]
  simp only [if_neg ht]
  rw [hh, hf]

theorem submit_done_future {s : ManagerState} {gid : Nat} {r : GameRecord}
    {h : HumanAgentObj} {f : FutureState} (i : Int) (sp : Option String)
    (hr : lookupA s.records gid = some r)
    (ht : ¬(r.status = "completed" ∨ r.status = "error"))
    (hh : find_human_agent r.game = some h)
    (hf : lookupA s.futures gid = some f) (hd : futDone f = true) :
    submit_human_action s gid i sp = Except.error (PyErr.runtimeError notWaitingMsg) := by
  unfold submit_human_action
  rw [hr]
  simp only [if_neg ht]
  rw [hh, hf]
  simp only [hd, if_pos]

theorem submit_out_of_range {s : ManagerState} {gid : Nat} {r : GameRecord}
    {h : HumanAgentObj} (i : Int) (sp : Option String)
    (hr : lookupA s.records gid = some r)
    (ht : ¬(r.status = "completed" ∨ r.status = "error"))
    (hh : find_human_agent r.game = some h)
    (hf : lookupA s.futures gid = some FutureState.pending)
    (hi : i < 0 ∨ ((h.current_available_actions.getD []).length : Int) ≤ i) :
    submit_human_action s gid i sp =
      Except.error (PyErr.valueError (outOfRangeMsg i)) := by
  unfold submit_human_action
  rw [hr]
  simp only [if_neg ht]
  rw [hh, hf]
  simp only [futDone, Bool.false_eq_true, if_false, if_pos hi]

theorem submit_success {s : ManagerState} {gid : Nat} {r : GameRecord}
    {h : HumanAgentObj} (i : Int) (sp : Option String)
    (hr : lookupA s.records gid = some r)
    (ht : ¬(r.status = "completed" ∨ r.status = "error"))
    (hh : find_human_agent r.game = some h)
    (hf : lookupA s.futures gid = some FutureState.pending)
    (h0 : 0 ≤ i) (hl : i < ((h.current_available_actions.getD []).length : Int)) :
    submit_human_action s gid i sp =
      Except.ok { s with futures := updateA s.futures gid fun _ =>
        FutureState.resolved { action_index := i, message := sp.getD "" } } := by
  unfold submit_human_action
  rw [hr]
  simp only [if_neg ht]
  rw [hh, hf]
  have hi : ¬(i < 0 ∨ ((h.current_available_actions.getD []).length : Int) ≤ i) := by omega
  simp only [futDone, Bool.false_eq_true, if_false, if_neg hi]

theorem submit_ok_inv {s s2 : ManagerState} {gid : Nat} {i : Int} {sp : Option String}
    (hs : submit_human_action s gid i sp = Except.ok s2) :
    ∃ r h, lookupA s.records gid = some r ∧
      ¬(r.status = "completed" ∨ r.status = "error") ∧
      find_human_agent r.game = some h ∧
      lookupA s.futures gid = some FutureState.pending ∧
      0 ≤ i ∧ i < ((h.current_available_actions.getD []).length : Int) ∧
      s2 = { s with futures := updateA s.futures gid fun _ =>
        FutureState.resolved { action_index := i, message := sp.getD "" } } := by
  unfold submit_human_action at hs
  split at hs
  · exact absurd hs (by simp)
  case _ r hr =>
    split at hs
    · exact absurd hs (by simp)
    case _ ht =>
      split at hs
      · exact absurd hs (by simp)
      case _ h hh =>
        split at hs
        · exact absurd hs (by simp)
        case _ f hf =>
          split at hs
          · exact absurd hs (by simp)
          case _ hd =>
            split at hs
            · exact absurd hs (by simp)
            case _ hi =>
              have hf' : f = FutureState.pending := by
                cases f with
                | pending => rfl
                | resolved p => exact absurd rfl hd
                | cancelled => exact absurd rfl hd
              subst hf'
              refine ⟨r, h, hr, ht, hh, hf, by omega, by omega, ?_⟩
              exact ((Except.ok.injEq _ _).mp hs).symm

/-! ### Case analysis of `get_state` -/

theorem humanTurnFields_error {b : Bool} {ha : Option HumanAgentObj}
    {ca : Option AgentObj} {e : PyErr}
    (h : humanTurnFields b ha ca = Except.error e) : ∃ m, e = PyErr.pyExc m := by
  unfold humanTurnFields at h
  split at h
  · split at h
    · exact ⟨_, (((Except.error.injEq _ _).mp h).symm)⟩
    · simp at h
  · split at h
    · split at h
      · simp at h
      · simp at h
    · simp at h

theorem humanPlayerName_error {ha : Option HumanAgentObj} {e : PyErr}
    (h : humanPlayerName ha = Except.error e) : ∃ m, e = PyErr.pyExc m := by
  unfold humanPlayerName at h
  split at h
  · simp at h
  · split at h
    · simp at h
    · exact ⟨_, (((Except.error.injEq _ _).mp h).symm)⟩

/-- For a known id, `get_state` either returns a snapshot carrying the
record's status and error fields, or propagates an engine read failure —
never a `KeyError`. -/
theorem get_state_cases {s : ManagerState} {gid : Nat} {r : GameRecord}
    (hr : lookupA s.records gid = some r) :
    (∃ snap, get_state s gid = Except.ok snap ∧ snap.status = r.status ∧
      snap.error = r.error) ∨
    (∃ m, get_state s gid = Except.error (PyErr.pyExc m)) := by
  unfold get_state
  rw [hr]
  dsimp only
  split
  case _ e heq =>
    right
    obtain ⟨m, rfl⟩ := humanTurnFields_error heq
    exact ⟨m, rfl⟩
  case _ acts pi cs heq =>
    split
    case _ e heq2 =>
      right
      obtain ⟨m, rfl⟩ := humanPlayerName_error heq2
      exact ⟨m, rfl⟩
    case _ hpn heq2 =>
      left
      exact ⟨_, rfl, rfl, rfl⟩

/-! ### The gate loop versus its first decisive poll -/

theorem waitReadyAux_eq_find (obs : Nat → PollObs) (fuel i : Nat) :
    waitReadyAux obs fuel i =
      match (List.range' i fuel).find? (fun j => (obs j).taskDone || (obs j).humanAgent) with
      | none => Except.error (PyErr.timeoutError timedOutMsg)
      | some j =>
        if (obs j).taskDone then Except.error (prematureErr (obs j).taskExc)
        else Except.ok () := by
  induction fuel generalizing i with
  | zero => rfl
  | succ fuel ih =>
    rw [List.range'_succ]
    by_cases hd : (obs i).taskDone
    · simp [waitReadyAux, hd, List.find?]
    · by_cases hh : (obs i).humanAgent
      · simp [waitReadyAux, hd, hh, List.find?]
      · simp only [waitReadyAux, hd, hh, List.find?, Bool.false_eq_true, if_false,
          Bool.or_self]
        exact ih (i + 1)

/-! ### Creation sequences -/

theorem createSeq_ids (s : ManagerState) (inputs : List (Game × TaskState)) :
    (createSeq s inputs).2 = List.range' s.next_game_id inputs.length := by
  induction inputs generalizing s with
  | nil => rfl
  | cons gt rest ih =>
    obtain ⟨g, t⟩ := gt
    simp only [createSeq, createGameRegister, List.length_cons, List.range'_succ]
    rw [ih]

/-! ### Concrete fixtures used by witnesses and counterexamples -/

/-- A human agent offering two actions, the second requiring a message. -/
def exHuman : HumanAgentObj :=
  { player := some { name := "H" },
    current_available_actions :=
      some [{ name := some "VOTE" }, { name := some "SPEAK", requires_message := some true }] }

/-- A game whose current player is the human. -/
def exGame : Game :=
  { agents := some [AgentObj.other (some { name := "A" }), AgentObj.human exHuman],
    current_player := some "H" }

/-- A running record for `exGame`. -/
def exRecord : GameRecord :=
  { game_id := 1, game := exGame, status := "running", task := some { done := false } }

/-- A manager with one running session, id 1, with a pending human request. -/
def exState : ManagerState :=
  { records := [(1, exRecord)], next_game_id := 2, futures := [(1, FutureState.pending)] }

/-- C1: `submit_human_action` never suspends (it is embedded as a total pure
function mirroring a Python `def` with no `await`), and resolves in exactly
the order NotFound (`KeyError`), InvalidState, NoHumanActor, NotWaiting,
OutOfRange, acceptance; given a known id with a live human actor, it
succeeds iff a pending unresolved request exists and the index is in range
of the human actor's most recently offered action list; every failure is the
raise at the corresponding source line (lines 277–297), taken before any
state mutation, so the session state is unchanged on failure. -/
theorem submit_action_resolution_order (s : ManagerState) (gid : Nat) (i : Int)
    (sp : Option String) :
    (lookupA s.records gid = none →
      submit_human_action s gid i sp = Except.error (PyErr.keyError (unknownGameMsg gid))) ∧
    (∀ r, lookupA s.records gid = some r →
      ((r.status = "completed" ∨ r.status = "error") →
        submit_human_action s gid i sp =
          Except.error (PyErr.runtimeError (invalidStateMsg gid r.status))) ∧
      (¬(r.status = "completed" ∨ r.status = "error") →
        (find_human_agent r.game = none →
          submit_human_action s gid i sp =
            Except.error (PyErr.runtimeError (noHumanAgentMsg gid))) ∧
        (∀ h, find_human_agent r.game = some h →
          ((∀ f, lookupA s.futures gid = some f → futDone f = true) →
            submit_human_action s gid i sp =
              Except.error (PyErr.runtimeError notWaitingMsg)) ∧
          (lookupA s.futures gid = some FutureState.pending →
            ((i < 0 ∨ ((h.current_available_actions.getD []).length : Int) ≤ i) →
              submit_human_action s gid i sp =
                Except.error (PyErr.valueError (outOfRangeMsg i))) ∧
            (0 ≤ i → i < ((h.current_available_actions.getD []).length : Int) →
              submit_human_action s gid i sp =
                Except.ok { s with futures := updateA s.futures gid fun _ =>
                  FutureState.resolved { action_index := i, message := sp.getD "" } })) ∧
          ((∃ s2, submit_human_action s gid i sp = Except.ok s2) ↔
            (lookupA s.futures gid = some FutureState.pending ∧ 0 ≤ i ∧
              i < ((h.current_available_actions.getD []).length : Int)))))) := by
  refine ⟨fun hn => submit_not_found i sp hn, fun r hr => ⟨?_, fun ht => ⟨?_, fun h hh => ⟨?_, ?_, ?_, ?_⟩⟩⟩⟩
  · exact fun ht => submit_terminal i sp hr ht
  · exact fun hh => submit_no_human i sp hr ht hh
  · intro hall
    cases hlf : lookupA s.futures gid with
    | none => exact submit_no_future i sp hr ht hh hlf
    | some f => exact submit_done_future i sp hr ht hh hlf (hall f hlf)
  · intro hf
    exact ⟨fun hi => submit_out_of_range i sp hr ht hh hf hi,
           fun h0 hl => submit_success i sp hr ht hh hf h0 hl⟩
  · rintro ⟨s2, hs2⟩
    obtain ⟨r', h', hr', ht', hh', hf', h0', hl', -⟩ := submit_ok_inv hs2
    have hrr : r' = r := by rw [hr] at hr'; exact ((Option.some.injEq _ _).mp hr').symm
    subst hrr
    have hhh : h' = h := by rw [hh] at hh'; exact ((Option.some.injEq _ _).mp hh').symm
    subst hhh
    exact ⟨hf', h0', hl'⟩
  · rintro ⟨hf, h0, hl⟩
    exact ⟨_, submit_success i sp hr ht hh hf h0 hl⟩

/-- Witness for C1: in the concrete one-session manager `exState`, submitting
index 0 succeeds and resolves the pending future. -/
theorem submit_action_resolution_order_witness :
    submit_human_action exState 1 0 (some "hi") =
      Except.ok { exState with futures := updateA exState.futures 1 (fun _ =>
        FutureState.resolved { action_index := 0, message := "hi" }) } := by
  have h := (submit_action_resolution_order exState 1 0 (some "hi")).2 exRecord rfl
  have h2 := (h.2 (by decide)).2 exHuman rfl
  exact (h2.2.1 rfl).2 (by decide) (by decide)

/-- C10: on every successful `submit_human_action` the pending future is
fulfilled with exactly `{"action_index": action_index, "message":
speech_text or ""}` — the message is always a string, with `None` (and the
empty string) normalised to `""` by `speech_text or ""`, embedded as
`Option.getD ""`.  The hypotheses constrain only the *length* of the human
actor's `current_available_actions`; no hypothesis mentions any action's
`requires_message` flag or relates it to `speech_text`, so success is
independent of whether the selected action is flagged as requiring a
free-text message (no such validation exists at lines 292–297). -/
theorem submit_success_fulfills_exact_payload (s : ManagerState) (gid : Nat) (i : Int)
    (sp : Option String) (r : GameRecord) (h : HumanAgentObj)
    (hr : lookupA s.records gid = some r)
    (ht : ¬(r.status = "completed" ∨ r.status = "error"))
    (hh : find_human_agent r.game = some h)
    (hf : lookupA s.futures gid = some FutureState.pending)
    (h0 : 0 ≤ i) (hl : i < ((h.current_available_actions.getD []).length : Int)) :
    ∃ s2, submit_human_action s gid i sp = Except.ok s2 ∧
      lookupA s2.futures gid =
        some (FutureState.resolved { action_index := i, message := sp.getD "" }) ∧
      s2.records = s.records ∧ s2.next_game_id = s.next_game_id := by
  refine ⟨_, submit_success i sp hr ht hh hf h0 hl, ?_, rfl, rfl⟩
  rw [lookupA_updateA_self, hf]
  rfl

/-- Witness for C10: in `exState` the human actor's action 1 is flagged
`requires_message`, yet submitting it with `speech_text = None` succeeds and
the future's payload carries `message = ""`. -/
theorem submit_success_fulfills_exact_payload_witness :
    ∃ s2, submit_human_action exState 1 1 none = Except.ok s2 ∧
      lookupA s2.futures 1 =
        some (FutureState.resolved { action_index := 1, message := "" }) ∧
      s2.records = exState.records ∧ s2.next_game_id = exState.next_game_id :=
  submit_success_fulfills_exact_payload exState 1 1 none exRecord exHuman rfl
    (by decide) rfl rfl (by decide) (by decide)

/-- The manager of `exState` after the pending request for session 1 has
already been fulfilled. -/
def exStateDup : ManagerState :=
  { records := [(1, exRecord)], next_game_id := 2,
    futures := [(1, FutureState.resolved { action_index := 0, message := "" })] }

/-- The manager of `exState` with no pending request entry for session 1 at
all. -/
def exStateNoFut : ManagerState :=
  { records := [(1, exRecord)], next_game_id := 2, futures := [] }

/-- C5 counterexample: a second submit attempt after the request has been
fulfilled is rejected, but with the *same* `RuntimeError("Game is not
currently waiting for a human action.")` raised when no pending request
exists at all (both come from lines 289–290) — there is no distinct
`AlreadyResolved` error, so the two situations are indistinguishable to the
caller. -/
theorem duplicate_submit_error_not_distinct :
    submit_human_action exStateDup 1 0 none =
      Except.error (PyErr.runtimeError notWaitingMsg) ∧
    submit_human_action exStateNoFut 1 0 none =
      Except.error (PyErr.runtimeError notWaitingMsg) :=
  ⟨rfl, rfl⟩

/-- C5 amended: a second submit attempt after the pending request has been
fulfilled or cancelled is rejected — not silently ignored — but with the
same generic NotWaiting `RuntimeError` that is returned when no pending
request exists for the id, not a distinct `AlreadyResolved` error. -/
theorem duplicate_submit_rejected (s : ManagerState) (gid : Nat) (i : Int)
    (sp : Option String) (r : GameRecord) (h : HumanAgentObj) (f : FutureState)
    (hr : lookupA s.records gid = some r)
    (ht : ¬(r.status = "completed" ∨ r.status = "error"))
    (hh : find_human_agent r.game = some h)
    (hf : lookupA s.futures gid = some f) (hd : futDone f = true) :
    submit_human_action s gid i sp = Except.error (PyErr.runtimeError notWaitingMsg) ∧
    (∀ s0 : ManagerState, lookupA s0.records gid = some r →
      lookupA s0.futures gid = none →
      submit_human_action s0 gid i sp =
        Except.error (PyErr.runtimeError notWaitingMsg)) :=
  ⟨submit_done_future i sp hr ht hh hf hd,
   fun _s0 hr0 hf0 => submit_no_future i sp hr0 ht hh hf0⟩

/-- Witness for the amended C5: the duplicate submit in `exStateDup` and the
no-request submit in `exStateNoFut` both produce the NotWaiting error. -/
theorem duplicate_submit_rejected_witness :
    submit_human_action exStateDup 1 0 none =
      Except.error (PyErr.runtimeError notWaitingMsg) ∧
    submit_human_action exStateNoFut 1 0 none =
      Except.error (PyErr.runtimeError notWaitingMsg) := by
  have h := duplicate_submit_rejected exStateDup 1 0 none exRecord exHuman
    (FutureState.resolved { action_index := 0, message := "" }) rfl (by decide) rfl rfl rfl
  exact ⟨h.1, h.2 exStateNoFut rfl rfl⟩

/-- C4: whenever the session task exits — normal completion, engine
exception, or cancellation (`runGame` applies the `finally` block of lines
82–87 after `runGameBody`, which covers all three `RunOutcome`s of the game
carried by the state) — the pending human-action future for that id, if not
yet resolved, is cancelled, and the id's entry is removed from the future
table; afterwards no entry for the id remains and no external
`submit_human_action` for that id can succeed. -/
theorem task_exit_cleanup (s : ManagerState) (gid : Nat) :
    lookupA (runGame s gid).futures gid = none ∧
    (∀ k, k ≠ gid → lookupA (runGame s gid).futures k = lookupA s.futures k) ∧
    (lookupA s.futures gid = some FutureState.pending →
      cleanupFate s.futures gid = some FutureState.cancelled) ∧
    (∀ i sp s2, submit_human_action (runGame s gid) gid i sp ≠ Except.ok s2) := by
  refine ⟨lookupA_eraseA_self s.futures gid, fun k hk => lookupA_eraseA_ne _ _ _ hk,
    fun hf => by unfold cleanupFate; rw [hf]; rfl, fun i sp s2 hok => ?_⟩
  obtain ⟨r, h, -, -, -, hf, -⟩ := submit_ok_inv hok
  rw [show (runGame s gid).futures = eraseA s.futures gid from rfl,
    lookupA_eraseA_self] at hf
  exact Option.noConfusion hf

/-- Witness for C4: after the session task of `exState`'s session 1 exits,
the future table has no entry for id 1 and the pending future was
cancelled. -/
theorem task_exit_cleanup_witness :
    lookupA (runGame exState 1).futures 1 = none ∧
    cleanupFate exState.futures 1 = some FutureState.cancelled := by
  have h := task_exit_cleanup exState 1
  exact ⟨h.1, h.2.2.1 rfl⟩

/-- C6: the readiness gate polls at a fixed interval (each `fuel` step of
`waitReadyAux` is one iteration of the `while` loop with its 0.05 s sleep)
and terminates in exactly one of three ways, determined by the first poll at
which the task is done or a human actor is visible: success as soon as a
human-controlled actor is exposed, `PrematureCompletion` (the
`RuntimeError`s of lines 96–97, carrying the task's exception if any) if the
task finished first, and `Timeout` (`TimeoutError`, line 104) if no poll
before the deadline observes either. -/
theorem gate_trichotomy (obs : Nat → PollObs) (n : Nat) :
    wait_for_human_agent_ready obs n = gateSpec obs n ∧
    (wait_for_human_agent_ready obs n = Except.ok () ∨
     wait_for_human_agent_ready obs n = Except.error (PyErr.timeoutError timedOutMsg) ∨
     ∃ x, wait_for_human_agent_ready obs n = Except.error (prematureErr x)) := by
  have heq : wait_for_human_agent_ready obs n = gateSpec obs n := by
    unfold wait_for_human_agent_ready gateSpec
    rw [waitReadyAux_eq_find, List.range_eq_range']
  refine ⟨heq, ?_⟩
  rw [heq]
  unfold gateSpec
  split
  · right; left; rfl
  · split
    · right; right; exact ⟨_, rfl⟩
    · left; rfl

/-- C2: for every sequence of `create_game` calls — including calls
interleaved on the event loop, whose critical sections are serialized by the
single `self._init_lock` (line 117), making id allocation and record
insertion atomic and modelled here by sequential composition `createSeq` —
the returned ids are exactly `next_game_id, next_game_id+1, ...` in
critical-section entry order: pairwise distinct and strictly increasing. -/
theorem create_ids_distinct_increasing (s : ManagerState)
    (inputs : List (Game × TaskState)) :
    (createSeq s inputs).2 = List.range' s.next_game_id inputs.length ∧
    ((createSeq s inputs).2).Pairwise (· < ·) ∧
    ((createSeq s inputs).2).Pairwise (· ≠ ·) := by
  have h := createSeq_ids s inputs
  refine ⟨h, ?_, ?_⟩
  · rw [h]; exact List.pairwise_lt_range' ..
  · rw [h]; exact (List.pairwise_lt_range' ..).imp Nat.ne_of_lt

/-- C7: if the readiness gate fails during `create_game` (any exception
`e`, in particular Timeout or PrematureCompletion), the handler of lines
159–164 sets the record's status to "error", records `str(e)` on the
record, cancels the task if it is still running, re-raises `e` to the
caller, and keeps the id in the registry, so a later `get_state` for the id
never fails with `KeyError` and any snapshot it returns shows status
"error". -/
theorem create_gate_failure_handling (s : ManagerState) (gid : Nat) (r : GameRecord)
    (e : PyErr) (hr : lookupA s.records gid = some r) :
    (createGameFinish s gid (Except.error e)).1 = Except.error e ∧
    (∃ r2, lookupA (createGameFinish s gid (Except.error e)).2.records gid = some r2 ∧
      r2.status = "error" ∧ r2.error = some (pyErrMsg e) ∧
      (∀ t, r.task = some t → t.done = false →
        r2.task = some { t with cancelled := true })) ∧
    (∀ m, get_state (createGameFinish s gid (Except.error e)).2 gid ≠
      Except.error (PyErr.keyError m)) ∧
    (∀ snap, get_state (createGameFinish s gid (Except.error e)).2 gid =
      Except.ok snap → snap.status = "error") := by
  have hrec : lookupA (createGameFinish s gid (Except.error e)).2.records gid =
      some (applyGateFailure r (pyErrMsg e)) := by
    show lookupA (updateA s.records gid _) gid = _
    rw [lookupA_updateA_self, hr]
    rfl
  have hstat : (applyGateFailure r (pyErrMsg e)).status = "error" := by
    unfold applyGateFailure
    cases htask : r.task with
    | none => rfl
    | some t =>
      by_cases hd : t.done <;> simp [htask, hd]
  have herr : (applyGateFailure r (pyErrMsg e)).error = some (pyErrMsg e) := by
    unfold applyGateFailure
    cases htask : r.task with
    | none => rfl
    | some t =>
      by_cases hd : t.done <;> simp [htask, hd]
  refine ⟨rfl, ⟨applyGateFailure r (pyErrMsg e), hrec, hstat, herr, ?_⟩, ?_, ?_⟩
  · intro t htask hdt
    unfold applyGateFailure
    simp [htask, hdt]
  · intro m hkey
    rcases get_state_cases hrec with ⟨snap, hok, -, -⟩ | ⟨mm, hpe⟩
    · rw [hok] at hkey; exact Except.noConfusion hkey
    · rw [hpe] at hkey
      exact PyErr.noConfusion ((Except.error.injEq _ _).mp hkey)
  · intro snap hok
    rcases get_state_cases hrec with ⟨snap2, hok2, hst2, -⟩ | ⟨mm, hpe⟩
    · rw [hok2] at hok
      have : snap2 = snap := (Except.ok.injEq _ _).mp hok
      rw [← this, hst2, hstat]
    · rw [hpe] at hok; exact Except.noConfusion hok

/-- Witness for C7: failing the gate of `exState`'s session 1 with the
timeout error re-raises it, and the record is forced to status "error" with
the message recorded. -/
theorem create_gate_failure_handling_witness :
    (createGameFinish exState 1 (Except.error (PyErr.timeoutError timedOutMsg))).1 =
      Except.error (PyErr.timeoutError timedOutMsg) ∧
    (lookupA (createGameFinish exState 1
        (Except.error (PyErr.timeoutError timedOutMsg))).2.records 1).map
      GameRecord.status = some "error" := by
  have h := create_gate_failure_handling exState 1 exRecord
    (PyErr.timeoutError timedOutMsg) rfl
  obtain ⟨h1, ⟨r2, hr2, hst, -, -⟩, -, -⟩ := h
  exact ⟨h1, by rw [hr2, Option.map_some', hst]⟩

/-- C8: any exception raised by the simulation's run loop is caught inside
the owning session task (`except Exception` at line 79): the record's status
becomes "error", its error field records the description, its result fields
`winner`/`winner_reason` are untouched, the exception does not propagate
(`runGame` is total), and every sibling session's record and future are
unaffected. -/
theorem run_failure_containment (s : ManagerState) (gid : Nat) (r : GameRecord)
    (e : String) (hr : lookupA s.records gid = some r)
    (hraise : r.game.runResult = RunOutcome.raises e) :
    (∃ r2, lookupA (runGame s gid).records gid = some r2 ∧
      r2.status = "error" ∧ r2.error = some e ∧
      r2.winner = r.winner ∧ r2.winner_reason = r.winner_reason) ∧
    (∀ k, k ≠ gid → lookupA (runGame s gid).records k = lookupA s.records k ∧
      lookupA (runGame s gid).futures k = lookupA s.futures k) := by
  constructor
  · refine ⟨runGameBody r, ?_, ?_⟩
    · show lookupA (updateA s.records gid _) gid = _
      rw [lookupA_updateA_self, hr]
      rfl
    · unfold runGameBody
      rw [hraise]
      exact ⟨rfl, rfl, rfl, rfl⟩
  · exact fun k hk => ⟨lookupA_updateA_ne _ _ _ _ hk, lookupA_eraseA_ne _ _ _ hk⟩

/-- A game whose run loop raises. -/
def exFailGame : Game := { runResult := RunOutcome.raises "engine exploded" }

/-- A two-session manager: session 1 is `exState`'s, session 2's run loop
raises. -/
def exStateFail : ManagerState :=
  { records := [(1, exRecord),
                (2, { game_id := 2, game := exFailGame, status := "running" })],
    next_game_id := 3, futures := [(1, FutureState.pending)] }

/-- Witness for C8: when session 2's run loop raises, its record turns to
status "error" with the message recorded and no result, while sibling
session 1's record and pending future are untouched. -/
theorem run_failure_containment_witness :
    (∃ r2, lookupA (runGame exStateFail 2).records 2 = some r2 ∧
      r2.status = "error" ∧ r2.error = some "engine exploded" ∧
      r2.winner = none ∧ r2.winner_reason = none) ∧
    lookupA (runGame exStateFail 2).records 1 = some exRecord ∧
    lookupA (runGame exStateFail 2).futures 1 = some FutureState.pending := by
  have h := run_failure_containment exStateFail 2
    { game_id := 2, game := exFailGame, status := "running" } "engine exploded" rfl rfl
  refine ⟨h.1, ?_, ?_⟩
  · rw [(h.2 1 (by decide)).1]; rfl
  · rw [(h.2 1 (by decide)).2]; rfl

/-! ### Terminal status behaviour (C3) -/

theorem applyGateFailure_status (r : GameRecord) (m : String) :
    (applyGateFailure r m).status = "error" := by
  unfold applyGateFailure
  cases htask : r.task with
  | none => rfl
  | some t => by_cases hd : t.done <;> simp [htask, hd]

/-- The record used by the C3 counterexample: a session whose task already
ran the game to normal completion. -/
def exDoneRecord : GameRecord :=
  { game_id := 1, game := {}, status := "completed", task := some { done := true } }

/-- A manager holding only the completed session 1. -/
def exDoneState : ManagerState :=
  { records := [(1, exDoneRecord)], next_game_id := 2, futures := [] }

/-- C3 counterexample: a record whose status is already "completed" is
assigned "error" afterwards by the `create_game` path.  The middle conjunct
shows the triggering gate outcome is reachable: when the poll observes the
task done (exactly the situation of `exDoneRecord`, whose task is done with
no exception), `_wait_for_human_agent_ready` raises the line-97
`RuntimeError`, and the `except` handler of lines 159–161 then overwrites
the "completed" status with "error" — so a terminal status is not stable, as
the claim asserts. -/
theorem completed_status_overwritten :
    (lookupA exDoneState.records 1).map GameRecord.status = some "completed" ∧
    wait_for_human_agent_ready (fun _ => { taskDone := true, taskExc := none }) 1 =
      Except.error (PyErr.runtimeError finishedEarlyMsg) ∧
    (lookupA (createGameFinish exDoneState 1
        (Except.error (PyErr.runtimeError finishedEarlyMsg))).2.records 1).map
      GameRecord.status = some "error" :=
  ⟨rfl, rfl, rfl⟩

/-- C3 amended: once a record's status is "completed" or "error", every
subsequent `submit_human_action` for the id fails with the InvalidState
error and the gate-success path of `create_game` (lines 166–167) preserves
the status; however the gate-failure path (lines 159–161) forces the status
to "error" unconditionally, so "error" is stable on these paths but
"completed" can still be overwritten to "error" when the readiness gate
fails.  (The session task itself writes the status only once per session,
before reaching a terminal value.) -/
theorem terminal_status_stability_bounds (s : ManagerState) (gid : Nat)
    (r : GameRecord) (hr : lookupA s.records gid = some r)
    (ht : r.status = "completed" ∨ r.status = "error") :
    (∀ i sp, submit_human_action s gid i sp =
      Except.error (PyErr.runtimeError (invalidStateMsg gid r.status))) ∧
    (∀ u : Unit, ∃ r2,
      lookupA (createGameFinish s gid (Except.ok u)).2.records gid = some r2 ∧
      r2.status = r.status) ∧
    (∀ e : PyErr, ∃ r2,
      lookupA (createGameFinish s gid (Except.error e)).2.records gid = some r2 ∧
      r2.status = "error") := by
  refine ⟨fun i sp => submit_terminal i sp hr ht, fun u => ⟨applyGateSuccess r, ?_, ?_⟩,
    fun e => ⟨applyGateFailure r (pyErrMsg e), ?_, applyGateFailure_status r _⟩⟩
  · show lookupA (updateA s.records gid _) gid = _
    rw [lookupA_updateA_self, hr]
    rfl
  · unfold applyGateSuccess
    rw [if_pos ht]
  · show lookupA (updateA s.records gid _) gid = _
    rw [lookupA_updateA_self, hr]
    rfl

/-- Witness for the amended C3: in the completed session of `exDoneState`,
submits fail with the InvalidState error, and the gate-success path leaves
the status "completed". -/
theorem terminal_status_stability_bounds_witness :
    submit_human_action exDoneState 1 0 none =
      Except.error (PyErr.runtimeError (invalidStateMsg 1 "completed")) ∧
    ∃ r2, lookupA (createGameFinish exDoneState 1 (Except.ok ())).2.records 1 = some r2 ∧
      r2.status = "completed" := by
  have h := terminal_status_stability_bounds exDoneState 1 exDoneRecord rfl (Or.inl rfl)
  exact ⟨h.1 0 none, h.2.1 ()⟩

/-! ### Best-effort projection (C9) -/

/-- A human agent whose `get_current_state_for_web()` raises. -/
def exBrokenHuman : HumanAgentObj :=
  { player := some { name := "H" }, web_state := Except.error "boom" }

/-- A game where it is the broken human agent's turn. -/
def exBrokenGame : Game :=
  { agents := some [AgentObj.human exBrokenHuman], current_player := some "H" }

/-- A manager holding only the running session 1 over `exBrokenGame`. -/
def exBrokenState : ManagerState :=
  { records := [(1, { game_id := 1, game := exBrokenGame, status := "running" })],
    next_game_id := 2, futures := [] }

/-- C9 counterexample: for the known id 1, a failure while reading the human
actor's action set (`get_current_state_for_web()` at line 234, outside any
`try` block) propagates out of `get_state` as a hard error — it does not
degrade to an absent field, and it is not the NotFound `KeyError`, contrary
to the claim that NotFound is the only hard failure of the polling
surface. -/
theorem get_state_propagates_read_failure :
    get_state exBrokenState 1 = Except.error (PyErr.pyExc "boom") ∧
    (∀ m, PyErr.pyExc "boom" ≠ PyErr.keyError m) :=
  ⟨rfl, fun _ h => PyErr.noConfusion h⟩

/-- C9 amended: `get_state` swallows only the failures the source guards:
top-level attributes read via `getattr` defaults, and the acting non-human
actor's situation description, whose `all_info_prompt()` failure is caught
by the `try`/`except` of lines 248–251 and surfaced as `player_info = None`.
Failures raised while reading the human actor's web state (line 234) or the
human player's name (line 269) propagate to the caller; `KeyError` for an
unknown id remains the only lookup failure. -/
theorem projection_swallows_situation_failure (s : ManagerState) (gid : Nat)
    (r : GameRecord) (p : PlayerObj) (em : String)
    (hr : lookupA s.records gid = some r)
    (hca : find_current_agent r.game = some (AgentObj.other (some p)))
    (hinfo : p.all_info = Except.error em)
    (hhp : ∀ h, find_human_agent r.game = some h → h.player.isSome = true) :
    ∃ snap, get_state s gid = Except.ok snap ∧ snap.player_info = none ∧
      snap.status = r.status := by
  unfold get_state
  rw [hr]
  dsimp only
  have hhtf : humanTurnFields (isHumanOpt (find_current_agent r.game))
      (find_human_agent r.game) (find_current_agent r.game) =
      Except.ok ([], none, none) := by
    rw [hca]
    simp [humanTurnFields, isHumanOpt, agentPlayer, hinfo]
  rw [hhtf]
  cases hfh : find_human_agent r.game with
  | none => exact ⟨_, rfl, rfl, rfl⟩
  | some h =>
    obtain ⟨pp, hpp⟩ := Option.isSome_iff_exists.mp (hhp h hfh)
    have hname : humanPlayerName (some h) = Except.ok (some pp.name) := by
      simp [humanPlayerName, hpp]
    rw [hname]
    exact ⟨_, rfl, rfl, rfl⟩

/-- The non-human agent whose situation read fails. -/
def exTornPlayer : PlayerObj := { name := "A", all_info := Except.error "torn" }

/-- A game where the torn non-human agent is acting and a healthy human
agent exists. -/
def exMixedGame : Game :=
  { agents := some [AgentObj.other (some exTornPlayer), AgentObj.human exHuman],
    current_player := some "A" }

/-- The running record over `exMixedGame`. -/
def exMixedRecord : GameRecord := { game_id := 1, game := exMixedGame, status := "running" }

/-- A manager holding only session 1 over `exMixedGame`. -/
def exMixedState : ManagerState :=
  { records := [(1, exMixedRecord)], next_game_id := 2, futures := [] }

/-- Witness for the amended C9: with the acting non-human agent's
`all_info_prompt()` raising, `get_state` still succeeds and surfaces
`player_info = None`. -/
theorem projection_swallows_situation_failure_witness :
    ∃ snap, get_state exMixedState 1 = Except.ok snap ∧ snap.player_info = none ∧
      snap.status = "running" :=
  projection_swallows_situation_failure exMixedState 1 exMixedRecord exTornPlayer
    "torn" rfl rfl rfl
    (fun h heq => by
      have h2 : exHuman = h := (Option.some.injEq _ _).mp heq
      rw [← h2]
      rfl)
